import Mathlib

/-!
Verification development for the ux-compare visual regression tool
(source file: scripts/compare.js).

The development is a shallow embedding of the action-execution and
image-comparison pipeline.  Browser interactions, the pixel-diff library
and the image resize library are external collaborators; they are
modelled as environment parameters (an oracle deciding whether each
browser call succeeds or rejects with an error message, and functions
computing the pixel-diff count and the resampled pixel data).  All
decision logic of the source (action dispatch, retry loops, warning and
classification policy, artifact writes, exit code) is translated
faithfully, statement by statement.
-/

namespace UxCompare

/-- A JavaScript primitive value, as far as the configuration surface
needs it.  Used for fields whose JS truthiness the source tests
(for example the value field of a select action). -/
inductive JSPrim where
  | undefined
  | null
  | str (s : String)
  | num (q : ℚ)
  | boolean (b : Bool)
deriving DecidableEq, Repr

/-- JS truthiness of a primitive: undefined, null, the empty string,
0 and false are falsy. -/
def JSPrim.truthy : JSPrim → Bool
  | .undefined => false
  | .null => false
  | .str s => !(s == "")
  | .num q => !(q == 0)
  | .boolean b => b

/-- Substring test on character lists: does sub occur at some position
of the second list? -/
def containsSubChars (sub : List Char) : List Char → Bool
  | [] => sub.isEmpty
  | c :: rest => sub.isPrefixOf (c :: rest) || containsSubChars sub rest

/-- Substring test, modelling String.prototype.includes from JS
(error.message.includes(...) in the retry conditions). -/
def containsSub (s sub : String) : Bool :=
  containsSubChars sub.data s.data

/-- One declarative action record, mirroring the JS action objects read
from configuration.  Optional fields are Option-valued; type is Option
because the source checks (!action.type) before dispatching. -/
structure Action where
  type : Option String := none
  url : String := ""
  waitUntil : Option String := none
  selector : String := ""
  waitForNavigation : Bool := false
  navigationTimeout : Option ℚ := none
  text : Option String := none
  optionsDelay : Option ℚ := none
  key : String := ""
  values : Option (List JSPrim) := none
  value : JSPrim := .undefined
  optionsState : Option String := none
  optionsVisible : Bool := false
  optionsHidden : Bool := false
  optionsTimeout : Option ℚ := none
  xpath : String := ""
  timeout : Option ℚ := none
  navOptsWaitUntil : Option String := none
  navOptsTimeout : Option ℚ := none
  cookies : Option (List String) := none
  items : List (String × String) := []
deriving DecidableEq, Repr

/-- One browser call issued by the interpreter or the orchestrator.
Each constructor records the arguments the source passes to the
browser-automation capability. -/
inductive BrowserOp where
  | gotoOp (url : String) (waitUntil : String) (timeout : Option ℚ)
  | reloadOp (waitUntil : String)
  | clickOp (selector : String)
  | waitForURLOrIdleOp (timeout : ℚ)
  | waitForTimeoutOp (ms : ℚ)
  | fillOp (selector : String) (text : String)
  | pressSequentiallyOp (selector : String) (text : String) (delay : ℚ)
  | pressOp (key : String)
  | selectOneOp (selector : String) (value : JSPrim)
  | selectManyOp (selector : String) (values : List JSPrim)
  | waitForSelectorOp (selector : String) (state : String) (timeout : Option ℚ)
  | waitForXPathOp (xpath : String)
  | clickXPathOp (xpath : String)
  | waitForLoadStateOp (state : String) (timeout : ℚ)
  | addCookiesOp (cookies : List String)
  | setLocalStorageOp (items : List (String × String))
  | setViewportSizeOp (width : Nat) (height : Nat)
  | screenshotOp (path : String) (fullPage : Bool)
deriving DecidableEq, Repr

/-- The external browser capability.  opResult n is the outcome of the
n-th browser call in the run: none means the awaited call resolves,
some msg means it rejects with an error whose message is msg.
resolveURL models new URL(u, base).toString(). -/
structure BrowserEnv where
  opResult : Nat → Option String
  resolveURL : String → String → String

/-- The page session state threaded through the run: how many browser
calls were issued so far (the oracle index), the trace of calls that
completed successfully, and the current page URL. -/
structure Session where
  opCount : Nat := 0
  trace : List BrowserOp := []
  currentURL : String := "about:blank"
deriving DecidableEq, Repr

/-- The URL a successful op navigates the page to, if any. -/
def opTargetURL : BrowserOp → Option String
  | .gotoOp url _ _ => some url
  | _ => none

/-- Issue one browser call: consult the oracle at the current call
index; on success append the call to the trace (and update the page
URL for navigations), on failure only advance the call index. -/
def performOp (env : BrowserEnv) (s : Session) (op : BrowserOp) :
    Session × Option String :=
  match env.opResult s.opCount with
  | none =>
      ({ opCount := s.opCount + 1, trace := s.trace ++ [op],
         currentURL := (opTargetURL op).getD s.currentURL }, none)
  | some msg => ({ s with opCount := s.opCount + 1 }, some msg)

/-- Error message fragment indicating a torn-down session
(the first retry condition at lines 140, 168, 212 and 235). -/
def closedMsg : String := "Target page, context or browser has been closed"

/-- Error message fragment indicating a not-yet-present element
(the second retry condition at lines 141 and 169). -/
def unableMsg : String := "Unable to find element"

/-- Retry condition of the click and type actions (lines 140-141 and
168-169): torn-down session or element not found. -/
def clickRetryable (msg : String) : Bool :=
  containsSub msg closedMsg || containsSub msg unableMsg

/-- Retry condition of the waitForSelector and waitForXPath actions
(lines 212 and 235): torn-down session only. -/
def closedRetryable (msg : String) : Bool :=
  containsSub msg closedMsg

/-- The retry loop shared by click, type, waitForSelector and
waitForXPath: fuel counts the remaining value of the retries variable
(initially 3).  A successful attempt breaks out; a retryable failure
decrements retries and, if attempts remain, waits 500 ms and retries;
any other failure, or the last retryable failure, is rethrown. -/
def retryWhile (env : BrowserEnv) (attempt : Session → Session × Option String) :
    (String → Bool) → Nat → Session → Session × Option String
  | _, 0, s => (s, none)
  | retryable, n + 1, s =>
    match attempt s with
    | (s1, none) => (s1, none)
    | (s1, some msg) =>
      if retryable msg then
        if 0 < n then
          match performOp env s1 (.waitForTimeoutOp 500) with
          | (s2, none) => retryWhile env attempt retryable n s2
          | (s2, some m2) => (s2, some m2)
        else (s1, some msg)
      else (s1, some msg)

/-- waitUntil normalization for goto and reload (lines 97-100 and
106-109): default networkidle, and map the Puppeteer values
networkidle0 and networkidle2 to networkidle. -/
def normWaitUntil (w : Option String) : String :=
  let w0 := match w with
    | none => "networkidle"
    | some u => if u = "" then "networkidle" else u
  if w0 = "networkidle0" || w0 = "networkidle2" then "networkidle" else w0

/-- One attempt of the click action body (lines 117-137).  With
waitForNavigation the source clicks, races a URL change against network
idle with the errors of the race swallowed, then waits 500 ms. -/
def clickAttempt (env : BrowserEnv) (a : Action) (s : Session) :
    Session × Option String :=
  if a.waitForNavigation then
    match performOp env s (.clickOp a.selector) with
    | (s1, some m) => (s1, some m)
    | (s1, none) =>
      let s2 := (performOp env s1 (.waitForURLOrIdleOp (a.navigationTimeout.getD 10000))).1
      performOp env s2 (.waitForTimeoutOp 500)
  else performOp env s (.clickOp a.selector)

/-- One attempt of the type action body (lines 159-165): with a delay
option type character by character, otherwise fill. -/
def typeAttempt (env : BrowserEnv) (a : Action) (s : Session) :
    Session × Option String :=
  match a.optionsDelay with
  | some d => performOp env s (.pressSequentiallyOp a.selector (a.text.getD "") d)
  | none => performOp env s (.fillOp a.selector (a.text.getD ""))

/-- The element state requested by a waitForSelector action (line 203):
options.state if given, else visible/hidden booleans, else attached. -/
def wfsState (a : Action) : String :=
  match a.optionsState with
  | some st => st
  | none =>
    if a.optionsVisible then "visible"
    else if a.optionsHidden then "hidden"
    else "attached"

/-- One attempt of the waitForSelector action body (lines 201-208). -/
def wfsAttempt (env : BrowserEnv) (a : Action) (s : Session) :
    Session × Option String :=
  performOp env s (.waitForSelectorOp a.selector (wfsState a) a.optionsTimeout)

/-- One attempt of the waitForXPath action body (lines 230-231). -/
def wfxAttempt (env : BrowserEnv) (a : Action) (s : Session) :
    Session × Option String :=
  performOp env s (.waitForXPathOp a.xpath)

/-- Dispatch one action (the switch at lines 92-274), including the
missing-type check at lines 86-88 and the unsupported-type default at
lines 272-273. -/
def runAction (env : BrowserEnv) (baseUrl : String) (s : Session) (a : Action) :
    Session × Option String :=
  match a.type with
  | none => (s, some "Action is missing a type.")
  | some t =>
    if t = "" then (s, some "Action is missing a type.")
    else if t = "goto" then
      performOp env s (.gotoOp (env.resolveURL a.url baseUrl) (normWaitUntil a.waitUntil) none)
    else if t = "reload" then
      performOp env s (.reloadOp (normWaitUntil a.waitUntil))
    else if t = "click" then
      retryWhile env (clickAttempt env a) clickRetryable 3 s
    else if t = "type" then
      retryWhile env (typeAttempt env a) clickRetryable 3 s
    else if t = "press" then
      performOp env s (.pressOp a.key)
    else if t = "select" then
      match a.values with
      | some vs => performOp env s (.selectManyOp a.selector vs)
      | none =>
        if a.value.truthy then performOp env s (.selectOneOp a.selector a.value)
        else (s, some ("Select action missing value(s): " ++ a.selector))
    else if t = "waitForSelector" then
      retryWhile env (wfsAttempt env a) closedRetryable 3 s
    else if t = "waitForXPath" then
      retryWhile env (wfxAttempt env a) closedRetryable 3 s
    else if t = "clickXPath" then
      performOp env s (.clickXPathOp a.xpath)
    else if t = "waitForTimeout" then
      performOp env s (.waitForTimeoutOp (a.timeout.getD 0))
    else if t = "waitForNavigation" then
      performOp env s
        (.waitForLoadStateOp (a.navOptsWaitUntil.getD "domcontentloaded")
          (a.navOptsTimeout.getD 10000))
    else if t = "setCookie" then
      performOp env s (.addCookiesOp (a.cookies.getD []))
    else if t = "setLocalStorage" then
      performOp env s (.setLocalStorageOp a.items)
    else (s, some ("Unsupported action type: " ++ t))

/-- The action loop (lines 85-275): run each action in order, stopping
at the first error, which is propagated. -/
def runActionsList (env : BrowserEnv) (baseUrl : String) :
    List Action → Session → Session × Option String
  | [], s => (s, none)
  | a :: rest, s =>
    match runAction env baseUrl s a with
    | (s1, none) => runActionsList env baseUrl rest s1
    | (s1, some m) => (s1, some m)

/-- runActions (lines 80-276): an absent or empty action list is a
no-op; otherwise run the loop. -/
def runActions (env : BrowserEnv) (actions : Option (List Action))
    (baseUrl : String) (s : Session) : Session × Option String :=
  match actions with
  | none => (s, none)
  | some [] => (s, none)
  | some l => runActionsList env baseUrl l s

/-- A decoded raster image: dimensions plus a pixel data buffer (the
RGBA byte buffer of the PNG library). -/
structure Image where
  width : Nat
  height : Nat
  data : List Nat
deriving DecidableEq, Repr

/-- The files the comparator reads: a path-to-image mapping. -/
abbrev FileSystem := List (String × Image)

/-- existsSync (line 381): the path is present on disk. -/
def existsSync (fs : FileSystem) (p : String) : Bool :=
  (fs.lookup p).isSome

/-- loadPng (lines 39-42): read the file and decode it; a missing file
rejects the promise, crashing the run. -/
def loadPng (fs : FileSystem) (p : String) : Except String Image :=
  match fs.lookup p with
  | some img => .ok img
  | none => .error ("ENOENT: no such file or directory, open " ++ p)

/-- An RGBA fill color, as passed to the resize capability. -/
structure RGBA where
  r : Nat
  g : Nat
  b : Nat
  a : Nat
deriving DecidableEq, Repr

/-- The external pixel-diff and resize capabilities (pixelmatch and
sharp): pixelmatch takes the two data buffers, the dimensions and the
per-pixel threshold and returns the differing-pixel count plus the
diff raster data; resize takes the source image, target dimensions,
fit mode and fill color and returns the resampled data buffer. -/
structure PixelEnv where
  pixelmatch : List Nat → List Nat → Nat → Nat → ℚ → Nat × List Nat
  resize : Image → Nat → Nat → String → RGBA → List Nat

/-- The white, fully opaque background of the resize call (line 51). -/
def whiteBg : RGBA := { r := 255, g := 255, b := 255, a := 1 }

/-- resizeImage (lines 49-55): invoke the external resize capability
with fit contain and a white background, producing an image of exactly
the requested dimensions.  The source reads the image from its path;
here it receives the already-decoded image of that same path. -/
def resizeImage (penv : PixelEnv) (img : Image) (width height : Nat) : Image :=
  { width := width, height := height,
    data := penv.resize img width height "contain" whiteBg }

/-- normalizeName helper: the characters the regex class [a-z0-9]
accepts. -/
def allowedChar (c : Char) : Bool :=
  c.isLower || c.isDigit

/-- normalizeName helper: replace every maximal run of characters
outside [a-z0-9] by a single hyphen (the replaceAll at line 58).  The
flag records whether the previous character was part of such a run. -/
def collapseRuns : Bool → List Char → List Char
  | _, [] => []
  | inRun, c :: rest =>
    if allowedChar c then c :: collapseRuns false rest
    else if inRun then collapseRuns true rest
    else '-' :: collapseRuns true rest

/-- normalizeName helper: drop one leading hyphen, as the regex
alternative matching at the start of the string does. -/
def stripLeadHyphen : List Char → List Char
  | '-' :: rest => rest
  | l => l

/-- normalizeName (lines 57-58): lowercase, collapse non-alphanumeric
runs to single hyphens, then remove a leading and a trailing hyphen. -/
def normalizeName (s : String) : String :=
  let collapsed := collapseRuns false (s.data.map Char.toLower)
  let noLead := stripLeadHyphen collapsed
  ⟨(stripLeadHyphen noLead.reverse).reverse⟩

/-- resolveDesignPath (lines 77-78): resolve the design image path
against the configuration directory. -/
def resolveDesignPath (configDir designImage : String) : String :=
  configDir ++ "/" ++ designImage

/-- One capture record pushed by captureScreenshots (lines 341-347). -/
structure CaptureEntry where
  name : String
  viewport : String
  url : String
  screenshotPath : String
  designImage : Option String
deriving DecidableEq, Repr

/-- One comparison record pushed by compareImages (lines 431 and 434).
The source names the third-to-last field match, a Lean keyword, so it
is called isMatch here; diffPercentage is stored as the exact value of
the 2-decimal rounded string the source keeps. -/
structure ComparisonResult where
  name : String
  diffPixels : Nat
  diffPercentage : ℚ
  isMatch : Bool
  failure : Bool
deriving DecidableEq, Repr

/-- The two comparison thresholds (configuration surface). -/
structure CompareConfig where
  threshold : ℚ := 1/10
  failureThreshold : ℚ := 1/2
deriving DecidableEq, Repr

/-- toFixed(2) followed by parseFloat (lines 412 and 417): round to two
decimals, ties rounding to the larger value, as Number.prototype.toFixed
specifies for nonnegative arguments. -/
def toFixed2 (x : ℚ) : ℚ :=
  (⌊x * 100 + 1 / 2⌋ : ℚ) / 100

/-- The aggregate state of compareImages (lines 366-369), extended with
the trace of savePng diff writes (line 415) and of pixelmatch
invocations (lines 402-409), which are the effects the source performs
but does not return. -/
structure CompareOutput where
  mismatches : Nat := 0
  failures : Nat := 0
  warnings : List String := []
  comparisonResults : List ComparisonResult := []
  diffsWritten : List String := []
  pixelmatchCalls : List (Image × Image × ℚ) := []
deriving DecidableEq, Repr

/-- The size-mismatch warning text (lines 394-395). -/
def sizeMismatchMsg (name : String) (design screenshot : Image) : String :=
  "Size mismatch for " ++ name ++ " (design: " ++ toString design.width ++ "x" ++
    toString design.height ++ ", screenshot: " ++ toString screenshot.width ++ "x" ++
    toString screenshot.height ++ "), resizing design to match screenshot..."

/-- The loop body of compareImages for one capture entry
(lines 371-437): skip with a warning when the design reference is
absent or its file missing; otherwise load both images, resample the
design on a dimension mismatch (with a warning), diff, write the diff
raster, round the percentage, and classify. -/
def compareEntry (penv : PixelEnv) (configDir diffsDir : String)
    (cfg : CompareConfig) (fs : FileSystem) (st : CompareOutput)
    (entry : CaptureEntry) : Except String CompareOutput :=
  match entry.designImage with
  | none =>
      .ok { st with warnings := st.warnings ++ ["No designImage for " ++ entry.name] }
  | some di =>
    let designPath := resolveDesignPath configDir di
    if existsSync fs designPath = false then
      .ok { st with warnings := st.warnings ++ ["Design image missing: " ++ designPath] }
    else
      match loadPng fs entry.screenshotPath with
      | .error e => .error e
      | .ok screenshot =>
        match loadPng fs designPath with
        | .error e => .error e
        | .ok design0 =>
          let wd :=
            if (screenshot.width != design0.width) ||
                (screenshot.height != design0.height) then
              (st.warnings ++ [sizeMismatchMsg entry.name design0 screenshot],
               resizeImage penv design0 screenshot.width screenshot.height)
            else (st.warnings, design0)
          let warnings1 := wd.1
          let design := wd.2
          let pm := penv.pixelmatch design.data screenshot.data design.width design.height
            cfg.threshold
          let diffPixels := pm.1
          let totalPixels := design.width * design.height
          let diffPercentage := toFixed2 ((diffPixels : ℚ) / (totalPixels : ℚ) * 100)
          let diffPath := diffsDir ++ "/" ++ entry.name ++ ".diff.png"
          let diffsWritten1 := st.diffsWritten ++ [diffPath]
          let calls1 := st.pixelmatchCalls ++ [(design, screenshot, cfg.threshold)]
          let isFailure : Bool := decide (diffPercentage > cfg.failureThreshold)
          if 0 < diffPixels then
            .ok { mismatches := st.mismatches + 1,
                  failures := st.failures + (if isFailure then 1 else 0),
                  warnings := warnings1,
                  comparisonResults := st.comparisonResults ++
                    [{ name := entry.name, diffPixels := diffPixels,
                       diffPercentage := diffPercentage, isMatch := false,
                       failure := isFailure }],
                  diffsWritten := diffsWritten1,
                  pixelmatchCalls := calls1 }
          else
            .ok { st with
                  warnings := warnings1,
                  comparisonResults := st.comparisonResults ++
                    [{ name := entry.name, diffPixels := 0, diffPercentage := 0,
                       isMatch := true, failure := false }],
                  diffsWritten := diffsWritten1,
                  pixelmatchCalls := calls1 }

/-- The comparison loop (lines 371-437), folded over the capture
entries; the first rejected promise aborts the batch. -/
def compareImagesList (penv : PixelEnv) (configDir diffsDir : String)
    (cfg : CompareConfig) (fs : FileSystem) :
    List CaptureEntry → CompareOutput → Except String CompareOutput
  | [], st => .ok st
  | e :: rest, st =>
    match compareEntry penv configDir diffsDir cfg fs st e with
    | .error err => .error err
    | .ok st1 => compareImagesList penv configDir diffsDir cfg fs rest st1

/-- compareImages (lines 356-440): compare every capture entry,
starting from the empty aggregate state, with diffs written under the
diffs subdirectory of the output directory. -/
def compareImages (penv : PixelEnv) (configDir outputDir : String)
    (cfg : CompareConfig) (fs : FileSystem) (entries : List CaptureEntry) :
    Except String CompareOutput :=
  compareImagesList penv configDir (outputDir ++ "/diffs") cfg fs entries {}

/-- A viewport configuration record. -/
structure Viewport where
  name : String
  width : Nat
  height : Nat
  deviceScaleFactor : ℚ := 1
deriving DecidableEq, Repr

/-- A page configuration record: designImages is the per-viewport
mapping, designImage the legacy single reference. -/
structure PageSpec where
  name : String
  path : String
  designImages : Option (List (String × String)) := none
  designImage : Option String := none
  actions : Option (List Action) := none
deriving DecidableEq, Repr

/-- The run configuration after merging with the defaults
(lines 9-18 and 60-75). -/
structure RunConfig where
  baseUrl : String := "http://localhost:8080/"
  outputDir : String := "output"
  threshold : ℚ := 1/10
  failureThreshold : ℚ := 1/2
  viewports : List Viewport := [{ name := "desktop", width := 1440, height := 900 }]
  globalActions : Option (List Action) := none
  pages : List PageSpec := []
deriving Repr

/-- The design reference resolved for a page at a viewport (line 339):
the per-viewport mapping entry when present, else the legacy single
reference. -/
def resolvedDesign (entry : PageSpec) (vpName : String) : Option String :=
  (match entry.designImages with
   | some m => m.lookup vpName
   | none => none) <|> entry.designImage

/-- The state threaded through captureScreenshots: the session, the
screenshot files written so far, the capture records pushed so far, and
the global-actions-executed flag (line 287). -/
structure CaptureState where
  session : Session := {}
  screenshotsWritten : List String := []
  results : List CaptureEntry := []
  globalActionsExecuted : Bool := false
deriving DecidableEq, Repr

/-- The per-page capture body (lines 307-348): resolve the target URL,
navigate unless the session is already there (waitUntil networkidle,
timeout 30000), run the page actions, take a full-page screenshot, then
push the capture record with the resolved design reference.  Any error
is re-raised, aborting the run (lines 333-336). -/
def capturePage (env : BrowserEnv) (cfg : RunConfig) (screenshotsDir : String)
    (vp : Viewport) (st : CaptureState) (entry : PageSpec) :
    Except String CaptureState :=
  let url := env.resolveURL entry.path cfg.baseUrl
  let name := normalizeName (entry.name ++ "-" ++ vp.name)
  let screenshotPath := screenshotsDir ++ "/" ++ name ++ ".png"
  let step1 : Session × Option String :=
    if st.session.currentURL != url then
      performOp env st.session (.gotoOp url "networkidle" (some 30000))
    else (st.session, none)
  match step1 with
  | (_, some m) => .error m
  | (s1, none) =>
    match runActions env entry.actions cfg.baseUrl s1 with
    | (_, some m) => .error m
    | (s2, none) =>
      match performOp env s2 (.screenshotOp screenshotPath true) with
      | (_, some m) => .error m
      | (s3, none) =>
        .ok { session := s3,
              screenshotsWritten := st.screenshotsWritten ++ [screenshotPath],
              results := st.results ++
                [{ name := name, viewport := vp.name, url := url,
                   screenshotPath := screenshotPath,
                   designImage := resolvedDesign entry vp.name }],
              globalActionsExecuted := st.globalActionsExecuted }

/-- The page loop of one viewport (lines 307-348). -/
def capturePagesList (env : BrowserEnv) (cfg : RunConfig) (screenshotsDir : String)
    (vp : Viewport) : List PageSpec → CaptureState → Except String CaptureState
  | [], st => .ok st
  | p :: rest, st =>
    match capturePage env cfg screenshotsDir vp st p with
    | .error m => .error m
    | .ok st1 => capturePagesList env cfg screenshotsDir vp rest st1

/-- The per-viewport body (lines 289-348): set the viewport size, run
the global actions once across the whole run (first viewport only),
then capture every page. -/
def captureViewport (env : BrowserEnv) (cfg : RunConfig) (screenshotsDir : String)
    (st : CaptureState) (vp : Viewport) : Except String CaptureState :=
  match performOp env st.session (.setViewportSizeOp vp.width vp.height) with
  | (_, some m) => .error m
  | (s1, none) =>
    let st1 := { st with session := s1 }
    let afterGlobal : Except String CaptureState :=
      if st1.globalActionsExecuted then .ok st1
      else
        match runActions env cfg.globalActions cfg.baseUrl st1.session with
        | (_, some m) => .error m
        | (s2, none) => .ok { st1 with session := s2, globalActionsExecuted := true }
    match afterGlobal with
    | .error m => .error m
    | .ok st2 => capturePagesList env cfg screenshotsDir vp cfg.pages st2

/-- The viewport loop (lines 289-349). -/
def captureViewportsList (env : BrowserEnv) (cfg : RunConfig)
    (screenshotsDir : String) : List Viewport → CaptureState → Except String CaptureState
  | [], st => .ok st
  | vp :: rest, st =>
    match captureViewport env cfg screenshotsDir st vp with
    | .error m => .error m
    | .ok st1 => captureViewportsList env cfg screenshotsDir rest st1

/-- captureScreenshots (lines 278-354): iterate the configured
viewports over a fresh page session, writing screenshots under the
screenshots subdirectory of the resolved output directory. -/
def captureScreenshots (env : BrowserEnv) (cfg : RunConfig) (configDir : String) :
    Except String CaptureState :=
  captureViewportsList env cfg
    (configDir ++ "/" ++ cfg.outputDir ++ "/screenshots") cfg.viewports {}

/-- The comparison thresholds a run configuration induces. -/
def RunConfig.compareConfig (cfg : RunConfig) : CompareConfig :=
  { threshold := cfg.threshold, failureThreshold := cfg.failureThreshold }

/-- The process exit code (lines 462, 517-523, 537 and 540-543): 1 when
the comparison stage reports at least one failure, 1 when the run
rejects with a fatal error, 0 otherwise. -/
def mainExitCode (run : Except String CompareOutput) : Nat :=
  match run with
  | .error _ => 1
  | .ok r => if 0 < r.failures then 1 else 0

/-- A capture entry whose design reference is present and whose
referenced file exists on disk: exactly the entries compareImages does
not skip (lines 374-385). -/
def validEntry (fs : FileSystem) (configDir : String) (e : CaptureEntry) : Bool :=
  match e.designImage with
  | none => false
  | some di => existsSync fs (resolveDesignPath configDir di)

/-- The action type strings of the enumerated set in the specification
(navigate, reload, click, type-text, press-key, select-option,
wait-for-element by selector or by XPath, wait-for-timeout,
wait-for-navigation, set-cookie, set-local-storage), rendered as the
type strings the source switches on. -/
def specKindStrings : List String :=
  ["goto", "reload", "click", "type", "press", "select", "waitForSelector",
   "waitForXPath", "waitForTimeout", "waitForNavigation", "setCookie",
   "setLocalStorage"]

/-- The action type strings the source actually dispatches on
(lines 92-274): the specification set plus clickXPath (line 247). -/
def codeKindStrings : List String :=
  ["goto", "reload", "click", "type", "press", "select", "waitForSelector",
   "waitForXPath", "clickXPath", "waitForTimeout", "waitForNavigation",
   "setCookie", "setLocalStorage"]

/-- A browser environment in which every call succeeds and URL
resolution appends the path to the base. -/
def allOkEnv : BrowserEnv :=
  { opResult := fun _ => none, resolveURL := fun u b => b ++ u }

/-- A browser environment whose first call rejects with a message
indicating a not-yet-present element, and every later call succeeds. -/
def unableOnceEnv : BrowserEnv :=
  { opResult := fun n => if n = 0 then some "Error: Unable to find element #x" else none,
    resolveURL := fun u b => b ++ u }

/-- A 1440 by 900 all-white RGBA image. -/
def img1440 : Image :=
  { width := 1440, height := 900, data := List.replicate (1440 * 900 * 4) 255 }

/-- A 2 by 2 all-white RGBA image. -/
def img2 : Image := { width := 2, height := 2, data := List.replicate 16 255 }

/-- A 3 by 5 RGBA image. -/
def img35 : Image := { width := 3, height := 5, data := List.replicate 60 128 }

/-- A pixel environment whose diff capability reports 17 differing
pixels. -/
def penvDiff17 : PixelEnv :=
  { pixelmatch := fun _ _ _ _ _ => (17, []),
    resize := fun _ w h _ _ => List.replicate (w * h * 4) 255 }

/-- A pixel environment whose diff capability reports zero differing
pixels. -/
def penvZero : PixelEnv :=
  { pixelmatch := fun _ _ _ _ _ => (0, []),
    resize := fun _ w h _ _ => List.replicate (w * h * 4) 255 }

/-- A file system holding the dashboard screenshot and its design. -/
def fsDashboard : FileSystem :=
  [("proj/output/screenshots/dashboard-desktop.png", img1440),
   ("proj/designs/dash.png", img1440)]

/-- The dashboard capture entry of the 17-pixel scenario. -/
def entryDashboard : CaptureEntry :=
  { name := "dashboard-desktop", viewport := "desktop",
    url := "http://localhost:8080/dashboard",
    screenshotPath := "proj/output/screenshots/dashboard-desktop.png",
    designImage := some "designs/dash.png" }

/-- Thresholds of the 17-pixel scenario: pixel sensitivity 0.1,
failure threshold 1 percent. -/
def cfgLenient : CompareConfig := { threshold := 1/10, failureThreshold := 1 }

/-- A small file system with one design and one screenshot file. -/
def fsSmall : FileSystem := [("cfg/d.png", img2), ("shot.png", img2)]

/-- A capture entry with a valid design reference into fsSmall. -/
def entryValid : CaptureEntry :=
  { name := "home-desktop", viewport := "desktop", url := "http://x/",
    screenshotPath := "shot.png", designImage := some "d.png" }

/-- A capture entry with no design reference. -/
def entryNoRef : CaptureEntry :=
  { name := "about-mobile", viewport := "mobile", url := "http://x/a",
    screenshotPath := "shot.png", designImage := none }

/-- A page declaring a per-viewport design mapping for the desktop
viewport only. -/
def pageDesktopOnly : PageSpec :=
  { name := "dashboard", path := "/dashboard",
    designImages := some [("desktop", "designs/dashboard-desktop.png")] }

/-- The mobile viewport of the omitted-mapping scenario. -/
def vpMobile : Viewport :=
  { name := "mobile", width := 390, height := 844, deviceScaleFactor := 2 }

/-- A run configuration containing only the mobile viewport and the
desktop-only page. -/
def cfgMobileRun : RunConfig :=
  { baseUrl := "http://localhost:8080/", outputDir := "output",
    viewports := [vpMobile], pages := [pageDesktopOnly] }

/-- A file system whose design and screenshot dimensions differ. -/
def fsMismatch : FileSystem := [("cfg/d.png", img35), ("shot.png", img2)]

/-- The capture-then-compare composition of main (lines 465-466): run
captureScreenshots, then compareImages over its capture records, with
the output directory resolved against the configuration directory. -/
def runCaptureAndCompare (env : BrowserEnv) (penv : PixelEnv) (cfg : RunConfig)
    (configDir : String) (fs : FileSystem) : Except String CompareOutput :=
  match captureScreenshots env cfg configDir with
  | .error m => .error m
  | .ok cst =>
      compareImages penv configDir (configDir ++ "/" ++ cfg.outputDir)
        cfg.compareConfig fs cst.results

/-- The counter invariant of the comparison loop: the failures counter
counts the failure-classified records and the mismatches counter the
non-match records. -/
def countsInv (st : CompareOutput) : Prop :=
  st.failures = st.comparisonResults.countP (fun r => r.failure) ∧
  st.mismatches = st.comparisonResults.countP (fun r => !r.isMatch)

theorem compareEntry_invalid (penv : PixelEnv) (configDir diffsDir : String)
    (cfg : CompareConfig) (fs : FileSystem) (st : CompareOutput) (e : CaptureEntry)
    (h : validEntry fs configDir e = false) :
    ∃ w, compareEntry penv configDir diffsDir cfg fs st e =
      .ok { st with warnings := st.warnings ++ [w] } := by
  unfold compareEntry
  cases hdi : e.designImage with
  | none => exact ⟨"No designImage for " ++ e.name, by simp [hdi]⟩
  | some di =>
      have h' : existsSync fs (resolveDesignPath configDir di) = false := by
        unfold validEntry at h
        rwa [hdi] at h
      exact ⟨"Design image missing: " ++ resolveDesignPath configDir di,
        by simp [hdi, h']⟩

theorem compareEntry_missing_screenshot (penv : PixelEnv) (configDir diffsDir : String)
    (cfg : CompareConfig) (fs : FileSystem) (st : CompareOutput) (e : CaptureEntry)
    (hv : validEntry fs configDir e = true)
    (hs : fs.lookup e.screenshotPath = none) :
    compareEntry penv configDir diffsDir cfg fs st e =
      .error ("ENOENT: no such file or directory, open " ++ e.screenshotPath) := by
  unfold compareEntry
  cases hdi : e.designImage with
  | none =>
      unfold validEntry at hv
      rw [hdi] at hv
      cases hv
  | some di =>
      have hv' : existsSync fs (resolveDesignPath configDir di) = true := by
        unfold validEntry at hv
        rwa [hdi] at hv
      simp [hdi, hv', loadPng, hs]

theorem compareEntry_valid (penv : PixelEnv) (configDir diffsDir : String)
    (cfg : CompareConfig) (fs : FileSystem) (st : CompareOutput) (e : CaptureEntry)
    (hv : validEntry fs configDir e = true)
    (hs : (fs.lookup e.screenshotPath).isSome = true) :
    ∃ st1 r, compareEntry penv configDir diffsDir cfg fs st e = .ok st1 ∧
      st1.comparisonResults = st.comparisonResults ++ [r] ∧
      (r.diffPixels = 0 → r.isMatch = true ∧ r.failure = false) ∧
      (r.diffPixels ≠ 0 → r.isMatch = false ∧
        (r.failure = true ↔ cfg.failureThreshold < r.diffPercentage)) ∧
      st1.failures = st.failures + (if r.failure then 1 else 0) ∧
      st1.mismatches = st.mismatches + (if r.isMatch then 0 else 1) ∧
      st1.diffsWritten = st.diffsWritten ++ [diffsDir ++ "/" ++ e.name ++ ".diff.png"] ∧
      (st1.warnings = st.warnings ∨ ∃ w, st1.warnings = st.warnings ++ [w]) := by
  cases hdi : e.designImage with
  | none =>
      unfold validEntry at hv
      rw [hdi] at hv
      cases hv
  | some di =>
      have hv' : existsSync fs (resolveDesignPath configDir di) = true := by
        unfold validEntry at hv
        rwa [hdi] at hv
      obtain ⟨sc, hsc⟩ := Option.isSome_iff_exists.mp hs
      have hv2 : (fs.lookup (resolveDesignPath configDir di)).isSome = true := by
        unfold existsSync at hv'
        exact hv'
      obtain ⟨d0, hd0⟩ := Option.isSome_iff_exists.mp hv2
      have hl1 : loadPng fs e.screenshotPath = .ok sc := by
        unfold loadPng
        rw [hsc]
      have hl2 : loadPng fs (resolveDesignPath configDir di) = .ok d0 := by
        unfold loadPng
        rw [hd0]
      unfold compareEntry
      simp only [hdi, hv', hl1, hl2, Bool.true_eq_false, if_false, reduceIte]
      by_cases hmm : ((sc.width != d0.width) || (sc.height != d0.height)) = true
      · simp only [hmm, reduceIte]
        by_cases hdp : 0 < (penv.pixelmatch
            (resizeImage penv d0 sc.width sc.height).data sc.data
            (resizeImage penv d0 sc.width sc.height).width
            (resizeImage penv d0 sc.width sc.height).height cfg.threshold).1
        · simp only [hdp, reduceIte]
          refine ⟨_, _, rfl, rfl, ?_, ?_, ?_, ?_, rfl, ?_⟩
          · intro h0; exact absurd h0 (Nat.pos_iff_ne_zero.mp hdp)
          · intro _
            exact ⟨rfl, decide_eq_true_iff⟩
          · rfl
          · simp
          · right; exact ⟨_, rfl⟩
        · simp only [hdp, reduceIte]
          refine ⟨_, _, rfl, rfl, ?_, ?_, ?_, ?_, rfl, ?_⟩
          · intro _; exact ⟨rfl, rfl⟩
          · intro h0; exact absurd rfl h0
          · simp
          · simp
          · right; exact ⟨_, rfl⟩
      · simp only [hmm, Bool.false_eq_true, reduceIte, if_false]
        by_cases hdp : 0 < (penv.pixelmatch d0.data sc.data d0.width d0.height
            cfg.threshold).1
        · simp only [hdp, reduceIte]
          refine ⟨_, _, rfl, rfl, ?_, ?_, ?_, ?_, rfl, ?_⟩
          · intro h0; exact absurd h0 (Nat.pos_iff_ne_zero.mp hdp)
          · intro _
            exact ⟨rfl, decide_eq_true_iff⟩
          · rfl
          · simp
          · left; rfl
        · simp only [hdp, reduceIte]
          refine ⟨_, _, rfl, rfl, ?_, ?_, ?_, ?_, rfl, ?_⟩
          · intro _; exact ⟨rfl, rfl⟩
          · intro h0; exact absurd rfl h0
          · simp
          · simp
          · left; rfl

theorem compareImagesList_total (penv : PixelEnv) (configDir diffsDir : String)
    (cfg : CompareConfig) (fs : FileSystem) (entries : List CaptureEntry) :
    ∀ (st : CompareOutput),
      (∀ e ∈ entries, validEntry fs configDir e = true →
        (fs.lookup e.screenshotPath).isSome = true) →
      ∃ out, compareImagesList penv configDir diffsDir cfg fs entries st = .ok out ∧
        out.comparisonResults.length =
          st.comparisonResults.length + entries.countP (validEntry fs configDir) ∧
        st.warnings.length +
          entries.countP (fun e => !validEntry fs configDir e) ≤ out.warnings.length ∧
        (∀ x ∈ st.diffsWritten, x ∈ out.diffsWritten) ∧
        (∀ e ∈ entries, validEntry fs configDir e = true →
          (diffsDir ++ "/" ++ e.name ++ ".diff.png") ∈ out.diffsWritten) := by
  induction entries with
  | nil =>
      intro st _
      exact ⟨st, rfl, by simp, by simp, fun x hx => hx, by simp⟩
  | cons e rest ih =>
      intro st hscr
      by_cases hv : validEntry fs configDir e = true
      · have hs : (fs.lookup e.screenshotPath).isSome = true :=
          hscr e (List.mem_cons_self e rest) hv
        obtain ⟨st1, r, hce, hres, _, _, _, _, hdw, hw⟩ :=
          compareEntry_valid penv configDir diffsDir cfg fs st e hv hs
        obtain ⟨out, hrun, hlen, hwarn, hmono, hmem⟩ :=
          ih st1 (fun e' he' => hscr e' (List.mem_cons_of_mem _ he'))
        have hwlen : st.warnings.length ≤ st1.warnings.length := by
          rcases hw with hw | ⟨w, hw⟩
          · rw [hw]
          · rw [hw]; simp
        refine ⟨out, ?_, ?_, ?_, ?_, ?_⟩
        · unfold compareImagesList
          rw [hce]
          exact hrun
        · rw [hlen, hres]
          simp [List.countP_cons, hv]
          omega
        · rw [List.countP_cons]
          simp only [hv, Bool.not_true]
          rw [if_neg (by simp)]
          omega
        · intro x hx
          refine hmono x ?_
          rw [hdw]
          exact List.mem_append_left _ hx
        · intro e' he' hv'
          rcases List.mem_cons.mp he' with he' | he'
          · subst he'
            refine hmono _ ?_
            rw [hdw]
            exact List.mem_append_right _ (List.mem_singleton.mpr rfl)
          · exact hmem e' he' hv'
      · have hvf : validEntry fs configDir e = false := by
          cases hvv : validEntry fs configDir e
          · rfl
          · exact absurd hvv hv
        obtain ⟨w, hce⟩ := compareEntry_invalid penv configDir diffsDir cfg fs st e hvf
        obtain ⟨out, hrun, hlen, hwarn, hmono, hmem⟩ :=
          ih { st with warnings := st.warnings ++ [w] }
            (fun e' he' => hscr e' (List.mem_cons_of_mem _ he'))
        refine ⟨out, ?_, ?_, ?_, ?_, ?_⟩
        · unfold compareImagesList
          rw [hce]
          exact hrun
        · rw [hlen]
          simp [List.countP_cons, hvf]
        · rw [List.countP_cons]
          simp only [hvf, Bool.not_false]
          have h1 : (if True then 1 else 0) = 1 := rfl
          rw [h1]
          simp only [List.length_append, List.length_singleton] at hwarn
          omega
        · exact hmono
        · intro e' he' hv'
          rcases List.mem_cons.mp he' with he' | he'
          · rw [he'] at hv'
            rw [hv'] at hvf
            cases hvf
          · exact hmem e' he' hv'

theorem compareImagesList_ok_props (penv : PixelEnv) (configDir diffsDir : String)
    (cfg : CompareConfig) (fs : FileSystem) (entries : List CaptureEntry) :
    ∀ (st out : CompareOutput),
      compareImagesList penv configDir diffsDir cfg fs entries st = .ok out →
      ((∀ r ∈ st.comparisonResults,
          (r.diffPixels = 0 → r.isMatch = true ∧ r.failure = false) ∧
          (r.diffPixels ≠ 0 → r.isMatch = false ∧
            (r.failure = true ↔ cfg.failureThreshold < r.diffPercentage))) →
        ∀ r ∈ out.comparisonResults,
          (r.diffPixels = 0 → r.isMatch = true ∧ r.failure = false) ∧
          (r.diffPixels ≠ 0 → r.isMatch = false ∧
            (r.failure = true ↔ cfg.failureThreshold < r.diffPercentage))) ∧
      (countsInv st → countsInv out) := by
  induction entries with
  | nil =>
      intro st out h
      cases h
      exact ⟨fun hst => hst, fun hst => hst⟩
  | cons e rest ih =>
      intro st out h
      unfold compareImagesList at h
      cases hce : compareEntry penv configDir diffsDir cfg fs st e with
      | error msg => rw [hce] at h; cases h
      | ok st1 =>
          rw [hce] at h
          by_cases hv : validEntry fs configDir e = true
          · by_cases hsome : (fs.lookup e.screenshotPath).isSome = true
            · obtain ⟨st1', r, hce', hres, h0, hnz, hfail, hmis, hdw, hw⟩ :=
                compareEntry_valid penv configDir diffsDir cfg fs st e hv hsome
              rw [hce] at hce'
              have hst1 : st1 = st1' := by
                cases hce'
                rfl
              subst hst1
              obtain ⟨ihres, ihcounts⟩ := ih st1 out h
              constructor
              · intro hst
                refine ihres ?_
                intro r' hr'
                rw [hres] at hr'
                rcases List.mem_append.mp hr' with hr' | hr'
                · exact hst r' hr'
                · rw [List.mem_singleton.mp hr']
                  exact ⟨h0, hnz⟩
              · intro hst
                refine ihcounts ?_
                obtain ⟨hf, hm⟩ := hst
                constructor
                · rw [hfail, hres, List.countP_append, hf, List.countP_cons]
                  simp
                · rw [hmis, hres, List.countP_append, hm, List.countP_cons]
                  cases hrm : r.isMatch <;> simp
            · have hnone : fs.lookup e.screenshotPath = none :=
                Option.not_isSome_iff_eq_none.mp hsome
              have := compareEntry_missing_screenshot penv configDir diffsDir cfg fs st e
                hv hnone
              rw [hce] at this
              cases this
          · have hvf : validEntry fs configDir e = false := by
              cases hvv : validEntry fs configDir e
              · rfl
              · exact absurd hvv hv
            obtain ⟨w, hce'⟩ := compareEntry_invalid penv configDir diffsDir cfg fs st e hvf
            rw [hce] at hce'
            have hst1 : st1 = { st with warnings := st.warnings ++ [w] } := by
              cases hce'
              rfl
            subst hst1
            obtain ⟨ihres, ihcounts⟩ := ih _ out h
            exact ⟨fun hst => ihres hst, fun hst => ihcounts hst⟩

/-- C7: comparing two 1440 by 900 images that the diff capability
reports as differing in exactly 17 pixels, with threshold 0.1 and
failureThreshold 1.0, stores the rounded diffPercentage 0.00
(17 of 1296000 pixels) and classifies the comparison as acceptable:
not a match and not a failure. -/
theorem seventeen_pixel_scenario_acceptable :
    compareImages penvDiff17 "proj" "proj/output" cfgLenient fsDashboard [entryDashboard] =
      .ok { mismatches := 1, failures := 0, warnings := [],
            comparisonResults := [{ name := "dashboard-desktop", diffPixels := 17,
                                    diffPercentage := 0, isMatch := false,
                                    failure := false }],
            diffsWritten := ["proj/output/diffs/dashboard-desktop.diff.png"],
            pixelmatchCalls := [(img1440, img1440, 1/10)] } := by
  have h1 : ("proj" ++ "/" ++ "designs/dash.png" ==
      "proj/output/screenshots/dashboard-desktop.png") = false := by decide
  have h2 : ("proj" ++ "/" ++ "designs/dash.png" == "proj/designs/dash.png") = true := by
    decide
  have h3 : ("proj/output/screenshots/dashboard-desktop.png" ==
      "proj/output/screenshots/dashboard-desktop.png") = true := by decide
  have h4 : ("proj/output" ++ "/diffs" ++ "/" ++ "dashboard-desktop" ++ ".diff.png") =
      "proj/output/diffs/dashboard-desktop.diff.png" := by decide
  norm_num [compareImages, compareImagesList, compareEntry, fsDashboard, entryDashboard,
    penvDiff17, cfgLenient, existsSync, loadPng, resolveDesignPath, List.lookup, img1440,
    toFixed2, h1, h2, h3, h4]

/-- C8 counterexample: the action kind clickXPath lies outside the
enumerated kind set of the specification, yet the interpreter executes
it successfully (one browser click call, no error) instead of failing
with a configuration error. -/
theorem clickXPath_kind_executes :
    "clickXPath" ∉ specKindStrings ∧
    runActions allOkEnv (some [{ type := some "clickXPath", xpath := "//a" }])
        "http://localhost:8080/" {} =
      ({ opCount := 1, trace := [.clickXPathOp "//a"] }, none) := by
  decide

/-- C8 (amended): for every action whose type string is outside the
kind set the source dispatches on - the enumerated specification set
plus clickXPath - and is not empty, the interpreter throws the
unsupported-action-type configuration error at that action with the
session untouched, so none of the subsequent actions executes. -/
theorem unsupported_type_halts (env : BrowserEnv) (baseUrl : String) (s : Session)
    (a : Action) (rest : List Action) (t : String) (ht : a.type = some t)
    (hne : t ≠ "") (hmem : t ∉ codeKindStrings) :
    runActionsList env baseUrl (a :: rest) s =
      (s, some ("Unsupported action type: " ++ t)) := by
  simp only [codeKindStrings, List.mem_cons, List.not_mem_nil, or_false] at hmem
  push_neg at hmem
  obtain ⟨h1, h2, h3, h4, h5, h6, h7, h8, h9, h10, h11, h12, h13⟩ := hmem
  simp [runActionsList, runAction, ht, hne, h1, h2, h3, h4, h5, h6, h7, h8, h9, h10,
    h11, h12, h13]

/-- C8 witness: an action list headed by the unknown kind hover fails
with the unsupported-action-type error and the following press action
never executes. -/
theorem unsupported_type_halts_witness :
    runActionsList allOkEnv "http://localhost:8080/"
        [{ type := some "hover", selector := "#m" },
         { type := some "press", key := "Enter" }] {} =
      ({}, some ("Unsupported action type: " ++ "hover")) :=
  unsupported_type_halts allOkEnv "http://localhost:8080/" {}
    { type := some "hover", selector := "#m" }
    [{ type := some "press", key := "Enter" }] "hover" rfl (by decide) (by decide)

/-- C9 counterexample: an error whose message indicates a
not-yet-present element is not retried by waitForSelector - it
propagates on the first attempt - although the very same error is
retried (and here recovered) by click.  The wait-for-element retry
policy is therefore narrower than the click and type policy. -/
theorem waitForSelector_unable_not_retried :
    closedRetryable "Error: Unable to find element #x" = false ∧
    clickRetryable "Error: Unable to find element #x" = true ∧
    (runActions unableOnceEnv
        (some [{ type := some "waitForSelector", selector := "#x" }]) "b" {}).2 =
      some "Error: Unable to find element #x" ∧
    (runActions unableOnceEnv
        (some [{ type := some "click", selector := "#x" }]) "b" {}).2 = none := by
  decide

/-- C9 (amended): for wait-for-element actions (waitForSelector and
waitForXPath) only failures whose message indicates a torn-down session
are retried, up to 3 attempts with a 500 ms backoff; failures with any
other message, including a not-yet-present element, propagate
immediately on the first attempt. -/
theorem waitForElement_retry_policy :
    (∀ (f : String → String → String) (baseUrl sel : String) (rest : List Action)
        (s : Session) (m : String), closedRetryable m = false →
      runActionsList ⟨fun _ => some m, f⟩ baseUrl
          ({ type := some "waitForSelector", selector := sel } :: rest) s =
        ({ s with opCount := s.opCount + 1 }, some m)) ∧
    (∀ (f : String → String → String) (baseUrl sel : String) (rest : List Action)
        (m : String), closedRetryable m = true →
      runActionsList ⟨fun n => if n = 1 ∨ n = 3 then none else some m, f⟩ baseUrl
          ({ type := some "waitForSelector", selector := sel } :: rest) {} =
        ({ opCount := 5, trace := [.waitForTimeoutOp 500, .waitForTimeoutOp 500] },
          some m)) ∧
    (∀ (f : String → String → String) (baseUrl sel : String) (m : String),
        closedRetryable m = true →
      runAction ⟨fun n => if n = 0 then some m else none, f⟩ baseUrl {}
          { type := some "waitForSelector", selector := sel } =
        ({ opCount := 3,
           trace := [.waitForTimeoutOp 500, .waitForSelectorOp sel "attached" none] },
          none)) ∧
    (∀ (f : String → String → String) (baseUrl xp : String) (rest : List Action)
        (s : Session) (m : String), closedRetryable m = false →
      runActionsList ⟨fun _ => some m, f⟩ baseUrl
          ({ type := some "waitForXPath", xpath := xp } :: rest) s =
        ({ s with opCount := s.opCount + 1 }, some m)) := by
  refine ⟨?_, ?_, ?_, ?_⟩
  · intro f baseUrl sel rest s m hm
    simp [runActionsList, runAction, retryWhile, wfsAttempt, performOp, wfsState, hm]
  · intro f baseUrl sel rest m hm
    simp [runActionsList, runAction, retryWhile, wfsAttempt, performOp, wfsState, hm,
      opTargetURL]
  · intro f baseUrl sel m hm
    simp [runAction, retryWhile, wfsAttempt, performOp, wfsState, hm, opTargetURL]
  · intro f baseUrl xp rest s m hm
    simp [runActionsList, runAction, retryWhile, wfxAttempt, performOp, hm]

/-- C9 witness: instantiating the retry policy at a concrete
non-torn-down message, at the exhausted torn-down scenario and at the
recovering torn-down scenario. -/
theorem waitForElement_retry_policy_witness :
    runActionsList ⟨fun _ => some "boom", fun u _ => u⟩ "b"
        [{ type := some "waitForSelector", selector := "#x" }] {} =
      ({ opCount := 1 }, some "boom") ∧
    runAction ⟨fun n => if n = 0 then some closedMsg else none, fun u _ => u⟩ "b" {}
        { type := some "waitForSelector", selector := "#y" } =
      ({ opCount := 3,
         trace := [.waitForTimeoutOp 500, .waitForSelectorOp "#y" "attached" none] },
        none) :=
  ⟨waitForElement_retry_policy.1 (fun u _ => u) "b" "#x" [] {} "boom" (by decide),
   waitForElement_retry_policy.2.2.1 (fun u _ => u) "b" "#y" closedMsg (by decide)⟩

/-- C10: a select action whose values field is not an array and whose
value field is JS-falsy - absent, null, the empty string or zero - is
rejected with the missing-value configuration error, even though a
value may in fact have been supplied. -/
theorem select_missing_value_error (env : BrowserEnv) (baseUrl : String) (s : Session)
    (rest : List Action) (a : Action) (ht : a.type = some "select")
    (hvals : a.values = none) (hval : a.value.truthy = false) :
    runActionsList env baseUrl (a :: rest) s =
      (s, some ("Select action missing value(s): " ++ a.selector)) := by
  simp [runActionsList, runAction, ht, hvals, hval]

/-- C10 witness: a select action that supplies the value zero is
rejected with the missing-value error. -/
theorem select_missing_value_error_witness :
    runActionsList allOkEnv "b"
        [{ type := some "select", selector := "#country", value := .num 0 }] {} =
      ({}, some ("Select action missing value(s): " ++ "#country")) :=
  select_missing_value_error allOkEnv "b" {} []
    { type := some "select", selector := "#country", value := .num 0 }
    rfl rfl (by decide)

theorem zero_diff_run_eq :
    compareImages penvZero "cfg" "out" cfgLenient fsSmall [entryValid] =
      .ok { mismatches := 0, failures := 0, warnings := [],
            comparisonResults := [{ name := "home-desktop", diffPixels := 0,
                                    diffPercentage := 0, isMatch := true,
                                    failure := false }],
            diffsWritten := ["out/diffs/home-desktop.diff.png"],
            pixelmatchCalls := [(img2, img2, 1/10)] } := by
  have h1 : ("cfg" ++ "/" ++ "d.png" == "cfg/d.png") = true := by decide
  have h2 : ("cfg" ++ "/" ++ "d.png" == "shot.png") = false := by decide
  have h3 : ("shot.png" == "cfg/d.png") = false := by decide
  have h4 : ("shot.png" == "shot.png") = true := by decide
  have h5 : ("out" ++ "/diffs" ++ "/" ++ "home-desktop" ++ ".diff.png") =
      "out/diffs/home-desktop.diff.png" := by decide
  norm_num [compareImages, compareImagesList, compareEntry, fsSmall, entryValid,
    penvZero, cfgLenient, existsSync, loadPng, resolveDesignPath, List.lookup, img2,
    h1, h2, h3, h4, h5]

/-- C1 counterexample: a comparison the diff capability reports as
identical (diffPixels 0) is classified match, yet its diff raster is
still written as an artifact file - the write at line 415 is
unconditional, refuting persistence only when diffPixels is positive. -/
theorem diff_artifact_written_despite_zero_diff :
    compareImages penvZero "cfg" "out" cfgLenient fsSmall [entryValid] =
      .ok { mismatches := 0, failures := 0, warnings := [],
            comparisonResults := [{ name := "home-desktop", diffPixels := 0,
                                    diffPercentage := 0, isMatch := true,
                                    failure := false }],
            diffsWritten := ["out/diffs/home-desktop.diff.png"],
            pixelmatchCalls := [(img2, img2, 1/10)] } :=
  zero_diff_run_eq

/-- C1 (amended): for every capture entry whose design reference is
present and resolvable, the diff raster is persisted as an artifact
regardless of the differing-pixel count - also when diffPixels is 0, in
which case the comparison is still classified match (and is never a
failure). -/
theorem diff_artifact_written_for_every_comparison (penv : PixelEnv)
    (configDir outputDir : String) (cfg : CompareConfig) (fs : FileSystem)
    (entries : List CaptureEntry)
    (hscr : ∀ e ∈ entries, validEntry fs configDir e = true →
      (fs.lookup e.screenshotPath).isSome = true) :
    ∃ out, compareImages penv configDir outputDir cfg fs entries = .ok out ∧
      (∀ e ∈ entries, validEntry fs configDir e = true →
        (outputDir ++ "/diffs" ++ "/" ++ e.name ++ ".diff.png") ∈ out.diffsWritten) ∧
      (∀ r ∈ out.comparisonResults, r.diffPixels = 0 →
        r.isMatch = true ∧ r.failure = false) := by
  obtain ⟨out, hrun, _, _, _, hmem⟩ :=
    compareImagesList_total penv configDir (outputDir ++ "/diffs") cfg fs entries {} hscr
  refine ⟨out, hrun, hmem, ?_⟩
  have hprops :=
    (compareImagesList_ok_props penv configDir (outputDir ++ "/diffs") cfg fs entries
      {} out hrun).1 (by simp)
  intro r hr h0
  exact (hprops r hr).1 h0

/-- C1 witness: the amended statement instantiated at a one-entry run
whose screenshot and design files exist. -/
theorem diff_artifact_written_witness :
    ∃ out, compareImages penvZero "cfg" "out" cfgLenient fsSmall [entryValid] = .ok out ∧
      (∀ e ∈ [entryValid], validEntry fsSmall "cfg" e = true →
        ("out" ++ "/diffs" ++ "/" ++ e.name ++ ".diff.png") ∈ out.diffsWritten) ∧
      (∀ r ∈ out.comparisonResults, r.diffPixels = 0 →
        r.isMatch = true ∧ r.failure = false) :=
  diff_artifact_written_for_every_comparison penvZero "cfg" "out" cfgLenient fsSmall
    [entryValid] (by decide)

/-- C2: in every completed comparison run, each outcome is classified
by the two-tier rule: diffPixels 0 gives match (never failure); a
positive diffPixels gives a non-match that is a failure exactly when
the rounded diffPercentage exceeds failureThreshold, and hence
acceptable exactly when it is at most failureThreshold. -/
theorem classification_policy (penv : PixelEnv) (configDir outputDir : String)
    (cfg : CompareConfig) (fs : FileSystem) (entries : List CaptureEntry)
    (out : CompareOutput)
    (h : compareImages penv configDir outputDir cfg fs entries = .ok out) :
    ∀ r ∈ out.comparisonResults,
      (r.diffPixels = 0 → r.isMatch = true ∧ r.failure = false) ∧
      (r.diffPixels ≠ 0 → r.isMatch = false ∧
        (r.failure = true ↔ cfg.failureThreshold < r.diffPercentage)) :=
  (compareImagesList_ok_props penv configDir (outputDir ++ "/diffs") cfg fs entries
    {} out h).1 (by simp)

/-- C2 witness: the classification rule instantiated at the zero-diff
outcome of a concrete run: that outcome is classified match and not
failure. -/
theorem classification_policy_witness :
    ({ name := "home-desktop", diffPixels := 0, diffPercentage := 0, isMatch := true,
       failure := false } : ComparisonResult).isMatch = true ∧
    ({ name := "home-desktop", diffPixels := 0, diffPercentage := 0, isMatch := true,
       failure := false } : ComparisonResult).failure = false :=
  (classification_policy penvZero "cfg" "out" cfgLenient fsSmall [entryValid]
      { mismatches := 0, failures := 0, warnings := [],
        comparisonResults := [{ name := "home-desktop", diffPixels := 0,
                                diffPercentage := 0, isMatch := true,
                                failure := false }],
        diffsWritten := ["out/diffs/home-desktop.diff.png"],
        pixelmatchCalls := [(img2, img2, 1/10)] }
      zero_diff_run_eq
      { name := "home-desktop", diffPixels := 0, diffPercentage := 0, isMatch := true,
        failure := false }
      (List.Mem.head _)).1 rfl

/-- C4: when every capture entry with a resolvable design reference has
its screenshot file on disk, the comparator completes without error,
producing exactly one outcome per entry with a present and resolvable
reference and at least one warning per entry with an absent or
unresolvable reference (which produce no outcome). -/
theorem comparator_outcome_invariant (penv : PixelEnv) (configDir outputDir : String)
    (cfg : CompareConfig) (fs : FileSystem) (entries : List CaptureEntry)
    (hscr : ∀ e ∈ entries, validEntry fs configDir e = true →
      (fs.lookup e.screenshotPath).isSome = true) :
    ∃ out, compareImages penv configDir outputDir cfg fs entries = .ok out ∧
      out.comparisonResults.length = entries.countP (validEntry fs configDir) ∧
      entries.countP (fun e => !validEntry fs configDir e) ≤ out.warnings.length := by
  obtain ⟨out, hrun, hlen, hwarn, _, _⟩ :=
    compareImagesList_total penv configDir (outputDir ++ "/diffs") cfg fs entries {} hscr
  refine ⟨out, hrun, ?_, ?_⟩
  · simpa using hlen
  · simpa using hwarn

/-- C4 witness: a run over one resolvable and one missing-reference
entry. -/
theorem comparator_outcome_invariant_witness :
    ∃ out, compareImages penvZero "cfg" "out" cfgLenient fsSmall
        [entryValid, entryNoRef] = .ok out ∧
      out.comparisonResults.length =
        [entryValid, entryNoRef].countP (validEntry fsSmall "cfg") ∧
      [entryValid, entryNoRef].countP (fun e => !validEntry fsSmall "cfg" e) ≤
        out.warnings.length :=
  comparator_outcome_invariant penvZero "cfg" "out" cfgLenient fsSmall
    [entryValid, entryNoRef] (by decide)

/-- C5: a comparison whose screenshot and reference dimensions differ
records the size-mismatch warning naming both dimension pairs, invokes
the pixel diff on the reference resampled - through the external
resize capability called with fit contain and white fill - to exactly
the screenshot dimensions, and still produces exactly one outcome
rather than aborting. -/
theorem dimension_mismatch_resampled (penv : PixelEnv) (configDir diffsDir : String)
    (cfg : CompareConfig) (fs : FileSystem) (st : CompareOutput) (e : CaptureEntry)
    (di : String) (sc d0 : Image)
    (hdi : e.designImage = some di)
    (hd0 : fs.lookup (resolveDesignPath configDir di) = some d0)
    (hsc : fs.lookup e.screenshotPath = some sc)
    (hne : sc.width ≠ d0.width ∨ sc.height ≠ d0.height) :
    ∃ st1, compareEntry penv configDir diffsDir cfg fs st e = .ok st1 ∧
      st1.warnings = st.warnings ++ [sizeMismatchMsg e.name d0 sc] ∧
      st1.pixelmatchCalls = st.pixelmatchCalls ++
        [(resizeImage penv d0 sc.width sc.height, sc, cfg.threshold)] ∧
      (resizeImage penv d0 sc.width sc.height).width = sc.width ∧
      (resizeImage penv d0 sc.width sc.height).height = sc.height ∧
      st1.comparisonResults.length = st.comparisonResults.length + 1 := by
  have hv' : existsSync fs (resolveDesignPath configDir di) = true := by
    unfold existsSync
    rw [hd0]
    rfl
  have hl1 : loadPng fs e.screenshotPath = .ok sc := by
    unfold loadPng
    rw [hsc]
  have hl2 : loadPng fs (resolveDesignPath configDir di) = .ok d0 := by
    unfold loadPng
    rw [hd0]
  have hmmb : ((sc.width != d0.width) || (sc.height != d0.height)) = true := by
    rcases hne with h | h <;> simp [bne_iff_ne, h]
  unfold compareEntry
  simp only [hdi, hv', hl1, hl2, Bool.true_eq_false, if_false, reduceIte]
  simp only [hmmb, reduceIte]
  by_cases hdp : 0 < (penv.pixelmatch
      (resizeImage penv d0 sc.width sc.height).data sc.data
      (resizeImage penv d0 sc.width sc.height).width
      (resizeImage penv d0 sc.width sc.height).height cfg.threshold).1
  · simp only [hdp, reduceIte]
    refine ⟨_, rfl, rfl, rfl, rfl, rfl, ?_⟩
    simp
  · simp only [hdp, reduceIte]
    refine ⟨_, rfl, rfl, rfl, rfl, rfl, ?_⟩
    simp

/-- C5 witness: a 2 by 2 screenshot against a 3 by 5 design. -/
theorem dimension_mismatch_resampled_witness :
    ∃ st1, compareEntry penvZero "cfg" "dd" cfgLenient fsMismatch {} entryValid =
        .ok st1 ∧
      st1.warnings = ([] : List String) ++ [sizeMismatchMsg entryValid.name img35 img2] ∧
      st1.pixelmatchCalls = ([] : List (Image × Image × ℚ)) ++
        [(resizeImage penvZero img35 img2.width img2.height, img2, cfgLenient.threshold)] ∧
      (resizeImage penvZero img35 img2.width img2.height).width = img2.width ∧
      (resizeImage penvZero img35 img2.width img2.height).height = img2.height ∧
      st1.comparisonResults.length = ([] : List ComparisonResult).length + 1 :=
  dimension_mismatch_resampled penvZero "cfg" "dd" cfgLenient fsMismatch {} entryValid
    "d.png" img2 img35 rfl (by decide) (by decide) (by decide)

/-- C6: a completed run exits with code 1 exactly when at least one
comparison is classified failure - acceptable nonzero differences and
warnings never affect the verdict - and a run rejected by a fatal
error also exits with code 1. -/
theorem fail_verdict_iff_failure_outcome (penv : PixelEnv)
    (configDir outputDir : String) (cfg : CompareConfig) (fs : FileSystem)
    (entries : List CaptureEntry) (out : CompareOutput)
    (h : compareImages penv configDir outputDir cfg fs entries = .ok out) :
    (mainExitCode (.ok out) = 1 ↔ ∃ r ∈ out.comparisonResults, r.failure = true) ∧
    (∀ msg, mainExitCode (.error msg) = 1) := by
  have hinv :=
    (compareImagesList_ok_props penv configDir (outputDir ++ "/diffs") cfg fs entries
      {} out h).2 ⟨rfl, rfl⟩
  obtain ⟨hf, _⟩ := hinv
  constructor
  · constructor
    · intro h1
      by_cases hp : 0 < out.failures
      · rw [hf] at hp
        exact List.countP_pos_iff.mp hp
      · exact absurd h1 (by simp [mainExitCode, hp])
    · intro hex
      have hp : 0 < out.failures := by
        rw [hf]
        exact List.countP_pos_iff.mpr hex
      simp [mainExitCode, hp]
  · intro msg
    rfl

/-- C6 witness: the verdict rule instantiated at the zero-diff
one-entry run, whose exit code is 0 and which has no failure
outcome. -/
theorem fail_verdict_iff_failure_outcome_witness :
    (mainExitCode (.ok { mismatches := 0, failures := 0, warnings := [],
                         comparisonResults := [{ name := "home-desktop", diffPixels := 0,
                                                 diffPercentage := 0, isMatch := true,
                                                 failure := false }],
                         diffsWritten := ["out/diffs/home-desktop.diff.png"],
                         pixelmatchCalls := [(img2, img2, 1/10)] }) = 1 ↔
      ∃ r ∈ [({ name := "home-desktop", diffPixels := 0, diffPercentage := 0,
                isMatch := true, failure := false } : ComparisonResult)],
        r.failure = true) ∧
    (∀ msg, mainExitCode (.error msg) = 1) :=
  fail_verdict_iff_failure_outcome penvZero "cfg" "out" cfgLenient fsSmall [entryValid]
    _ zero_diff_run_eq

/-- C3 counterexample: running the mobile-only viewport of a page whose
designImages mapping names only desktop resolves no design reference,
produces no outcome and writes no diff artifact - but the run records
one missing-reference warning for that page, not zero: the omission is
not silent. -/
theorem omitted_viewport_mapping_not_silent :
    resolvedDesign pageDesktopOnly "mobile" = none ∧
    runCaptureAndCompare allOkEnv penvZero cfgMobileRun "proj" [] =
      .ok { mismatches := 0, failures := 0,
            warnings := ["No designImage for dashboard-mobile"],
            comparisonResults := [], diffsWritten := [], pixelmatchCalls := [] } :=
  ⟨rfl, rfl⟩

/-- C3 (amended): for every page declaring a per-viewport designImages
mapping that omits the current viewport (and with no legacy single
reference), the capture for that viewport is still produced, the
comparison stage creates no outcome and no diff artifact for it, and
the run records exactly one warning for that page - the
missing-reference warning, the same as for a wholly absent
reference. -/
theorem omitted_viewport_mapping_warns
    (env : BrowserEnv) (penv : PixelEnv) (configDir : String) (fs : FileSystem)
    (b od : String) (t ft : ℚ) (pg : PageSpec) (vp : Viewport)
    (dm : List (String × String)) (cc : CompareConfig)
    (hdm : pg.designImages = some dm) (hlk : dm.lookup vp.name = none)
    (hleg : pg.designImage = none) (hact : pg.actions = none)
    (henv : ∀ n, env.opResult n = none)
    (hurl : env.resolveURL pg.path b ≠ "about:blank") :
    ∃ cst out,
      captureScreenshots env
          { baseUrl := b, outputDir := od, threshold := t, failureThreshold := ft,
            viewports := [vp], globalActions := none, pages := [pg] } configDir =
        .ok cst ∧
      cst.screenshotsWritten =
        [configDir ++ "/" ++ od ++ "/screenshots" ++ "/" ++
          normalizeName (pg.name ++ "-" ++ vp.name) ++ ".png"] ∧
      cst.results.length = 1 ∧
      (∀ r ∈ cst.results, r.designImage = none) ∧
      compareImages penv configDir (configDir ++ "/" ++ od) cc fs cst.results = .ok out ∧
      out.comparisonResults = [] ∧
      out.diffsWritten = [] ∧
      out.warnings =
        ["No designImage for " ++ normalizeName (pg.name ++ "-" ++ vp.name)] := by
  have hu2 : (("about:blank" : String) != env.resolveURL pg.path b) = true := by
    rw [bne_iff_ne]
    exact fun hh => hurl hh.symm
  refine
    ⟨{ session :=
         { opCount := 3,
           trace := [.setViewportSizeOp vp.width vp.height,
                     .gotoOp (env.resolveURL pg.path b) "networkidle" (some 30000),
                     .screenshotOp (configDir ++ "/" ++ od ++ "/screenshots" ++ "/" ++
                       normalizeName (pg.name ++ "-" ++ vp.name) ++ ".png") true],
           currentURL := env.resolveURL pg.path b },
       screenshotsWritten := [configDir ++ "/" ++ od ++ "/screenshots" ++ "/" ++
         normalizeName (pg.name ++ "-" ++ vp.name) ++ ".png"],
       results := [{ name := normalizeName (pg.name ++ "-" ++ vp.name),
                     viewport := vp.name,
                     url := env.resolveURL pg.path b,
                     screenshotPath := configDir ++ "/" ++ od ++ "/screenshots" ++ "/" ++
                       normalizeName (pg.name ++ "-" ++ vp.name) ++ ".png",
                     designImage := none }],
       globalActionsExecuted := true },
     { mismatches := 0, failures := 0,
       warnings := ["No designImage for " ++ normalizeName (pg.name ++ "-" ++ vp.name)],
       comparisonResults := [], diffsWritten := [], pixelmatchCalls := [] },
     ?_, rfl, rfl, ?_, ?_, rfl, rfl, rfl⟩
  · simp [captureScreenshots, captureViewportsList, captureViewport, capturePagesList,
      capturePage, runActions, performOp, henv, opTargetURL, hact, resolvedDesign,
      hdm, hlk, hleg, hu2]
  · simp
  · simp [compareImages, compareImagesList, compareEntry]

/-- C3 witness: the omitted-mapping behavior instantiated at the
desktop-only page under the mobile viewport. -/
theorem omitted_viewport_mapping_warns_witness :
    ∃ cst out,
      captureScreenshots allOkEnv
          { baseUrl := "http://localhost:8080/", outputDir := "output", threshold := 1,
            failureThreshold := 1, viewports := [vpMobile], globalActions := none,
            pages := [pageDesktopOnly] } "proj" = .ok cst ∧
      cst.screenshotsWritten =
        ["proj" ++ "/" ++ "output" ++ "/screenshots" ++ "/" ++
          normalizeName (pageDesktopOnly.name ++ "-" ++ vpMobile.name) ++ ".png"] ∧
      cst.results.length = 1 ∧
      (∀ r ∈ cst.results, r.designImage = none) ∧
      compareImages penvZero "proj" ("proj" ++ "/" ++ "output") cfgLenient []
        cst.results = .ok out ∧
      out.comparisonResults = [] ∧
      out.diffsWritten = [] ∧
      out.warnings = ["No designImage for " ++
        normalizeName (pageDesktopOnly.name ++ "-" ++ vpMobile.name)] :=
  omitted_viewport_mapping_warns allOkEnv penvZero "proj" [] "http://localhost:8080/"
    "output" 1 1 pageDesktopOnly vpMobile [("desktop", "designs/dashboard-desktop.png")]
    cfgLenient rfl (by decide) rfl rfl (fun _ => rfl) (by decide)

end UxCompare
